import Mathlib

/-!
Shallow embedding of the XequiNet ASE calculator
(`xequinet/interface/ase_calculator.py`) together with a spec-level model of
the periodic neighbor builder `radius_graph_pbc` (imported from
`xequinet.utils`, whose body is not part of the visible source slice).

Real-valued quantities are embedded as rationals (`ℚ`): the Python code
performs only field arithmetic (scaling by unit constants, negation,
division by a volume), so exact rational arithmetic models it faithfully,
and every definition stays executable.
-/

namespace XequiNet

/-- A 3-vector with rational components, standing in for a row of a numpy
`(·, 3)` array. -/
structure Vec3 where
  x : ℚ
  y : ℚ
  z : ℚ
deriving DecidableEq, Repr

def Vec3.add (a b : Vec3) : Vec3 := ⟨a.x + b.x, a.y + b.y, a.z + b.z⟩

def Vec3.sub (a b : Vec3) : Vec3 := ⟨a.x - b.x, a.y - b.y, a.z - b.z⟩

def Vec3.neg (a : Vec3) : Vec3 := ⟨-a.x, -a.y, -a.z⟩

/-- Scalar multiplication `c * v`, componentwise. -/
def Vec3.smul (c : ℚ) (a : Vec3) : Vec3 := ⟨c * a.x, c * a.y, c * a.z⟩

/-- Componentwise division by a scalar, as numpy `v / c`. -/
def Vec3.sdiv (a : Vec3) (c : ℚ) : Vec3 := ⟨a.x / c, a.y / c, a.z / c⟩

/-- Squared Euclidean norm. -/
def Vec3.normSq (a : Vec3) : ℚ := a.x ^ 2 + a.y ^ 2 + a.z ^ 2

def Vec3.zero : Vec3 := ⟨0, 0, 0⟩

/-- Whether any component is nonzero (numpy `row.any()`). -/
def Vec3.isNonzero (a : Vec3) : Bool := a.x ≠ 0 || a.y ≠ 0 || a.z ≠ 0

/-- Cross product, used for the perpendicular lattice-plane spacing. -/
def Vec3.cross (a b : Vec3) : Vec3 :=
  ⟨a.y * b.z - a.z * b.y, a.z * b.x - a.x * b.z, a.x * b.y - a.y * b.x⟩

/-- A 3×3 matrix stored as three rows, standing in for an ASE cell or a
virial tensor. -/
structure Mat3 where
  r0 : Vec3
  r1 : Vec3
  r2 : Vec3
deriving DecidableEq, Repr

def Mat3.transpose (m : Mat3) : Mat3 :=
  ⟨⟨m.r0.x, m.r1.x, m.r2.x⟩, ⟨m.r0.y, m.r1.y, m.r2.y⟩, ⟨m.r0.z, m.r1.z, m.r2.z⟩⟩

def Mat3.add (a b : Mat3) : Mat3 := ⟨a.r0.add b.r0, a.r1.add b.r1, a.r2.add b.r2⟩

def Mat3.smul (c : ℚ) (m : Mat3) : Mat3 :=
  ⟨Vec3.smul c m.r0, Vec3.smul c m.r1, Vec3.smul c m.r2⟩

def Mat3.det (m : Mat3) : ℚ :=
  m.r0.x * (m.r1.y * m.r2.z - m.r1.z * m.r2.y)
    - m.r0.y * (m.r1.x * m.r2.z - m.r1.z * m.r2.x)
    + m.r0.z * (m.r1.x * m.r2.y - m.r1.y * m.r2.x)

def Mat3.zero : Mat3 := ⟨Vec3.zero, Vec3.zero, Vec3.zero⟩

/-- The symmetric part `(m + mᵀ) / 2` of a matrix. -/
def Mat3.symPart (m : Mat3) : Mat3 := Mat3.smul (1 / 2) (m.add m.transpose)

/-- The 6-component reduced (Voigt) form of a symmetric 3×3 tensor, in ASE's
component order xx, yy, zz, yz, xz, xy. -/
structure Voigt6 where
  xx : ℚ
  yy : ℚ
  zz : ℚ
  yz : ℚ
  xz : ℚ
  xy : ℚ
deriving DecidableEq, Repr

/-- Componentwise division by a scalar (division of the Voigt vector by the
cell volume). -/
def Voigt6.sdiv (v : Voigt6) (c : ℚ) : Voigt6 :=
  ⟨v.xx / c, v.yy / c, v.zz / c, v.yz / c, v.xz / c, v.xy / c⟩

/-- Models `ase.stress.full_3x3_to_voigt_6_stress` (external dependency used
at `ase_calculator.py:118-119`): the diagonal entries are kept and each
off-diagonal Voigt component is the average of the two corresponding matrix
entries. -/
def full_3x3_to_voigt_6_stress (m : Mat3) : Voigt6 :=
  ⟨m.r0.x, m.r1.y, m.r2.z,
   (m.r1.z + m.r2.y) / 2, (m.r0.z + m.r2.x) / 2, (m.r0.y + m.r1.x) / 2⟩

/-- The constant `ase.units.Bohr` in Angstrom (CODATA value used by ASE). -/
def Bohr : ℚ := 5291772105638411 / 10 ^ 16

/-- The constant `ase.units.Hartree` in eV (CODATA value used by ASE). -/
def Hartree : ℚ := 27211386024367243 / 10 ^ 15

/-- ASE `Cell.rank`: the number of nonzero lattice vectors. -/
def cellRank (m : Mat3) : ℕ :=
  (if m.r0.isNonzero then 1 else 0) + (if m.r1.isNonzero then 1 else 0)
    + (if m.r2.isNonzero then 1 else 0)

/-- ASE `Atoms.get_volume`: the absolute value of the cell determinant. -/
def getVolume (m : Mat3) : ℚ := |Mat3.det m|

/-- The slice of an `ase.Atoms` object read by `XeqCalculator.calculate`:
atomic numbers, positions (Angstrom), per-axis periodicity flags, and the
3×3 cell matrix. -/
structure Atoms where
  numbers : List ℕ
  positions : List Vec3
  pbc : Bool × Bool × Bool
  cell : Mat3
deriving DecidableEq, Repr

/-- The calculator parameters (`XeqCalculator.default_parameters` merged with
keyword arguments by the ASE base class). -/
structure Params where
  cutoff : ℚ
  max_edges : ℕ
  charge : ℤ
  spin : ℤ
deriving DecidableEq, Repr

/-- The defaults `XeqCalculator.default_parameters`. -/
def default_parameters : Params := ⟨5, 100, 0, 0⟩

/-- The keyword bundle `model_inputs` handed to the scripted model.  The keys
`at_no`, `coord`, `charge`, `spin` are always set; `edge_index` and `shifts`
are set only on the `md` path, so they are embedded as `Option`s whose
`isSome` records key presence. -/
structure ModelInputs where
  at_no : List ℕ
  coord : List Vec3
  charge : ℤ
  spin : ℤ
  edge_index : Option (List (ℕ × ℕ))
  shifts : Option (List Vec3)

/-- The output dictionary of the scripted model: the calculator reads
`energy`, `gradient`, `forces`, `energies`, `virial` and `virials` from it,
depending on the variant. -/
structure ModelOutput where
  energy : ℚ
  gradient : List Vec3
  forces : List Vec3
  energies : List ℚ
  virial : Mat3
  virials : List Mat3

/-- The opaque scripted model: a pure bundle-in / bundle-out function. -/
def Model := ModelInputs → ModelOutput

/-- The errors this slice can signal.  `configurationError` stands for the
`ValueError`s raised in `XeqCalculator.__init__` (the spec's
`ConfigurationError`); `unsupportedPropertyError` is the spec's name for a
property/configuration mismatch (the code never raises it). -/
inductive CalcError where
  | configurationError
  | unsupportedPropertyError
deriving DecidableEq, Repr

/-- The per-instance state of a constructed `XeqCalculator`. -/
structure CalcState where
  model_type : String
  model : Model
  implemented_properties : List String
  parameters : Params

/-- The constructor `XeqCalculator.__init__`.  `classProps` is the current value of the
class-level `implemented_properties` list (initially `["energy"]`); because
`self.implemented_properties += [...]` extends that shared list in place and
rebinds it on the instance, the function returns both the construction
result and the new class-level list.  `loadCkpt` abstracts
`torch.jit.load`. -/
def XeqInit (loadCkpt : String → Model) (classProps : List String)
    (model_type : String) (ckpt_file : Option String) (model : Option Model)
    (params : Params) : Except CalcError CalcState × List String :=
  if model_type ≠ "md" ∧ model_type ≠ "geometry" then
    (Except.error CalcError.configurationError, classProps)
  else
    let newProps :=
      if model_type = "md" then
        classProps ++ ["energies", "stress", "stresses", "forces"]
      else
        classProps ++ ["gradient"]
    match model with
    | some m => (Except.ok ⟨model_type, m, newProps, params⟩, newProps)
    | none =>
      match ckpt_file with
      | some f => (Except.ok ⟨model_type, loadCkpt f, newProps, params⟩, newProps)
      | none => (Except.error CalcError.configurationError, newProps)

/-! ### Periodic neighbor builder

`radius_graph_pbc` lives in `xequinet.utils`, outside the visible source
slice; only its call site (`ase_calculator.py:89-95`) is visible.  The
definitions below are therefore modelled from the spec (§4.1
PeriodicNeighborBuilder): image ranges from the perpendicular lattice-plane
spacing, enumeration of pair/shift candidates within the cutoff (self-pair
at zero shift excluded), and deterministic nearest-distance-first truncation
to the per-atom neighbor budget.  Distances are compared through their
squares, which is exact over `ℚ`. -/

/-- A candidate/retained neighbor edge: source and target atom indices, the
integer periodic-image shift, and the squared distance recorded for the
truncation policy. -/
structure Cand where
  src : ℕ
  dst : ℕ
  shift : ℤ × ℤ × ℤ
  distSq : ℚ
deriving DecidableEq, Repr

/-- The real-space displacement of an integer image shift through the
lattice matrix. -/
def shiftVec (cell : Mat3) (s : ℤ × ℤ × ℤ) : Vec3 :=
  (Vec3.smul (s.1 : ℚ) cell.r0).add
    ((Vec3.smul (s.2.1 : ℚ) cell.r1).add (Vec3.smul (s.2.2 : ℚ) cell.r2))

/-- Least natural `n` with `(n : ℚ)^2 ≥ q` (an integer `k` satisfies `k ≥ q`
iff `k ≥ ⌈q⌉`). -/
def leastNatWithSqGe (q : ℚ) : ℕ :=
  let m : ℕ := (max ⌈q⌉ 0).toNat
  let s := Nat.sqrt m
  if s * s = m then s else s + 1

/-- Modelled from the spec: the minimal number of lattice-image translations
along one periodic axis so that no pair within `cutoff` is missed, derived
from the perpendicular spacing between lattice planes `|det| / ‖aⱼ × aₖ‖`
(so `n ≥ cutoff / spacing`, i.e. `n² det² ≥ cutoff² ‖aⱼ × aₖ‖²`). -/
def imageCount (flag : Bool) (det cutoff : ℚ) (aj ak : Vec3) : ℕ :=
  if flag then leastNatWithSqGe (cutoff ^ 2 * (aj.cross ak).normSq / det ^ 2) else 0

/-- The symmetric integer range `-n, …, n`. -/
def shiftRange (n : ℕ) : List ℤ :=
  (List.range (2 * n + 1)).map (fun k => (k : ℤ) - (n : ℤ))

/-- Modelled from the spec: all integer image shifts to enumerate — the full
range on periodic axes, only the zero translation on non-periodic axes. -/
def allShifts (pbc : Bool × Bool × Bool) (cell : Mat3) (cutoff : ℚ) :
    List (ℤ × ℤ × ℤ) :=
  let d := Mat3.det cell
  let n0 := imageCount pbc.1 d cutoff cell.r1 cell.r2
  let n1 := imageCount pbc.2.1 d cutoff cell.r2 cell.r0
  let n2 := imageCount pbc.2.2 d cutoff cell.r0 cell.r1
  (shiftRange n0).flatMap (fun s0 =>
    (shiftRange n1).flatMap (fun s1 =>
      (shiftRange n2).map (fun s2 => (s0, s1, s2))))

/-- Modelled from the spec: every candidate edge with source atom `i` —
all pair/image combinations whose true squared distance is within
`cutoff²`, excluding the self-pair at zero shift. -/
def candidateEdges (positions : List Vec3) (pbc : Bool × Bool × Bool)
    (cell : Mat3) (cutoff : ℚ) (i : ℕ) : List Cand :=
  if i < positions.length then
    (List.range positions.length).flatMap (fun j =>
      (allShifts pbc cell cutoff).filterMap (fun s =>
        let d := ((positions.getD j Vec3.zero).add (shiftVec cell s)).sub
          (positions.getD i Vec3.zero)
        if d.normSq ≤ cutoff ^ 2 ∧ ¬(i = j ∧ s = (0, 0, 0)) then
          some ⟨i, j, s, d.normSq⟩
        else none))
  else []

/-- Lexicographic comparison of integer shifts, the final deterministic
tie-break of the truncation order. -/
def shiftLe (a b : ℤ × ℤ × ℤ) : Bool :=
  if a.1 ≠ b.1 then a.1 < b.1
  else if a.2.1 ≠ b.2.1 then a.2.1 < b.2.1
  else a.2.2 ≤ b.2.2

/-- The deterministic nearest-distance-first truncation order: squared
distance first, then target index, then the image shift. -/
def candLe (a b : Cand) : Bool :=
  if a.distSq ≠ b.distSq then a.distSq < b.distSq
  else if a.dst ≠ b.dst then a.dst < b.dst
  else shiftLe a.shift b.shift

/-- The truncation order as a decidable relation (for `List.insertionSort`,
which is structurally recursive and hence evaluates inside the kernel). -/
def candLEr : Cand → Cand → Prop := fun a b => candLe a b = true

instance : DecidableRel candLEr :=
  fun a b => inferInstanceAs (Decidable (candLe a b = true))

/-- Modelled from the spec: the edges retained for source atom `i` — the
candidates sorted nearest-first under the deterministic order, truncated to
the `max_num_neighbors` budget. -/
def retainedEdges (positions : List Vec3) (pbc : Bool × Bool × Bool)
    (cell : Mat3) (cutoff : ℚ) (max_num_neighbors : ℕ) (i : ℕ) : List Cand :=
  (List.insertionSort candLEr (candidateEdges positions pbc cell cutoff i)).take
    max_num_neighbors

/-- Modelled from the spec: `xequinet.utils.radius_graph_pbc` — the retained
edges of every source atom, concatenated in source order. -/
def radius_graph_pbc (positions : List Vec3) (pbc : Bool × Bool × Bool)
    (cell : Mat3) (cutoff : ℚ) (max_num_neighbors : ℕ) : List Cand :=
  (List.range positions.length).flatMap
    (retainedEdges positions pbc cell cutoff max_num_neighbors)

/-- The entries the calculator may store in `self.results`: each field is
`some` exactly when `calculate` sets the corresponding key. -/
structure ResultSet where
  energy : Option ℚ
  forces : Option (List Vec3)
  energies : Option (List ℚ)
  stress : Option Voigt6
  stresses : Option (List Voigt6)
deriving DecidableEq, Repr

/-- The keyword bundle built on the `geometry` path
(`ase_calculator.py:75-85`): coordinates are the caller's positions divided
componentwise by `Bohr` (Angstrom to Bohr); no graph keys are set. -/
def geometryModelInputs (c : CalcState) (atoms : Atoms) : ModelInputs :=
  { at_no := atoms.numbers
    coord := atoms.positions.map (fun p => p.sdiv Bohr)
    charge := c.parameters.charge
    spin := c.parameters.spin
    edge_index := none
    shifts := none }

/-- The keyword bundle built on the `md` path (`ase_calculator.py:77-101`):
coordinates are the caller's positions unchanged, and the `edge_index` and
`shifts` keys hold the neighbor graph from `radius_graph_pbc` (shifts as
real-space displacement vectors through the cell). -/
def mdModelInputs (c : CalcState) (atoms : Atoms) : ModelInputs :=
  let graph := radius_graph_pbc atoms.positions atoms.pbc atoms.cell
    c.parameters.cutoff c.parameters.max_edges
  { at_no := atoms.numbers
    coord := atoms.positions
    charge := c.parameters.charge
    spin := c.parameters.spin
    edge_index := some (graph.map (fun e => (e.src, e.dst)))
    shifts := some (graph.map (fun e => shiftVec atoms.cell e.shift)) }

/-- Lines 70-101 of `XeqCalculator.calculate`: the `model_inputs` dictionary,
dispatched on `self.model_type`.  On any other tag the Python body would
crash on the unbound local `coord`, embedded as `none` (a state built by
`XeqInit` never reaches that branch). -/
def buildModelInputs (c : CalcState) (atoms : Atoms) : Option ModelInputs :=
  if c.model_type = "geometry" then some (geometryModelInputs c atoms)
  else if c.model_type = "md" then some (mdModelInputs c atoms)
  else none

/-- The method `XeqCalculator.calculate` (lines 60-119).  The `properties` argument is
only forwarded to the ASE base class, so the result does not depend on it.
On the `geometry` path the model energy is rescaled by `Hartree` and the
gradient is negated and rescaled by `Hartree / Bohr`; on the `md` path
energy, forces and per-atom energies are stored unchanged, and the stress
keys are set only when the cell rank is 3. -/
def XeqCalculate (c : CalcState) (atoms : Atoms) ( properties : List String) :
    Except CalcError ResultSet :=
  match buildModelInputs c atoms with
  | none => Except.error CalcError.configurationError
  | some inputs =>
    let model_res := c.model inputs
    if c.model_type = "geometry" then
      Except.ok
        { energy := some (model_res.energy * Hartree)
          forces := some (model_res.gradient.map
            (fun g => (Vec3.smul Hartree g.neg).sdiv Bohr))
          energies := none
          stress := none
          stresses := none }
    else
      Except.ok
        { energy := some model_res.energy
          forces := some model_res.forces
          energies := some model_res.energies
          stress :=
            if cellRank atoms.cell = 3 then
              some ((full_3x3_to_voigt_6_stress model_res.virial).sdiv
                (getVolume atoms.cell))
            else none
          stresses :=
            if cellRank atoms.cell = 3 then
              some (model_res.virials.map (fun v =>
                (full_3x3_to_voigt_6_stress v).sdiv (getVolume atoms.cell)))
            else none }

/-! ### Concrete fixtures -/

/-- A concrete stand-in for a scripted model, with input-dependent outputs so
that concrete evaluations exercise the data flow. -/
def stubModel : Model := fun inp =>
  { energy := (inp.charge : ℚ) + (inp.at_no.length : ℚ)
    gradient := inp.coord
    forces := inp.coord.map (Vec3.smul 2)
    energies := inp.at_no.map (fun n => (n : ℚ))
    virial := ⟨⟨1, 2, 3⟩, ⟨4, 5, 6⟩, ⟨7, 8, 9⟩⟩
    virials := [⟨⟨1, 0, 0⟩, ⟨0, 1, 0⟩, ⟨0, 0, 1⟩⟩] }

/-- A single free atom (hydrogen at the origin, no cell, no periodicity). -/
def atomsFree : Atoms :=
  { numbers := [1]
    positions := [⟨0, 0, 0⟩]
    pbc := (false, false, false)
    cell := Mat3.zero }

/-- Two atoms in a cubic cell of side 2, fully periodic. -/
def atomsCube : Atoms :=
  { numbers := [1, 1]
    positions := [⟨0, 0, 0⟩, ⟨1, 1, 1⟩]
    pbc := (true, true, true)
    cell := ⟨⟨2, 0, 0⟩, ⟨0, 2, 0⟩, ⟨0, 0, 2⟩⟩ }

/-- A calculator state as `XeqInit` builds it for the `geometry` variant. -/
def geomState : CalcState :=
  ⟨"geometry", stubModel, ["energy", "gradient"], default_parameters⟩

/-- A calculator state as `XeqInit` builds it for the `md` variant. -/
def mdState : CalcState :=
  ⟨"md", stubModel, ["energy", "energies", "stress", "stresses", "forces"],
    default_parameters⟩

/-! ### Helper lemmas -/

lemma shiftLe_trans (a b c : ℤ × ℤ × ℤ) (hab : shiftLe a b) (hbc : shiftLe b c) :
    shiftLe a c := by
  simp only [shiftLe] at *
  split_ifs at * <;> simp_all <;> omega

lemma shiftLe_total (a b : ℤ × ℤ × ℤ) : shiftLe a b || shiftLe b a := by
  simp only [shiftLe]
  split_ifs <;> simp_all <;> omega

lemma candLe_trans (a b c : Cand) (hab : candLe a b) (hbc : candLe b c) :
    candLe a c := by
  simp only [candLe] at *
  split_ifs at * <;> simp_all <;>
    first
    | omega
    | linarith
    | (exact shiftLe_trans _ _ _ hab hbc)

lemma candLe_total (a b : Cand) : candLe a b || candLe b a := by
  have h9 := shiftLe_total a.shift b.shift
  simp only [candLe]
  split_ifs <;> simp_all

lemma candLe_distSq (a b : Cand) (h : candLe a b) : a.distSq ≤ b.distSq := by
  simp only [candLe] at h
  split_ifs at h <;> simp_all
  exact le_of_lt h

lemma src_of_mem_candidateEdges {positions : List Vec3}
    {pbc : Bool × Bool × Bool} {cell : Mat3} {cutoff : ℚ} {i : ℕ} {e : Cand}
    (h : e ∈ candidateEdges positions pbc cell cutoff i) : e.src = i := by
  simp only [candidateEdges] at h
  split at h
  · simp only [List.mem_flatMap, List.mem_filterMap] at h
    obtain ⟨j, -, s, -, hs⟩ := h
    split_ifs at hs
    cases hs
    rfl
  · simp at h

instance : IsTrans Cand candLEr := ⟨candLe_trans⟩

instance : IsTotal Cand candLEr :=
  ⟨fun a b => by simpa [candLEr, Bool.or_eq_true] using candLe_total a b⟩

lemma src_of_mem_retainedEdges {positions : List Vec3}
    {pbc : Bool × Bool × Bool} {cell : Mat3} {cutoff : ℚ} {mn i : ℕ} {e : Cand}
    (h : e ∈ retainedEdges positions pbc cell cutoff mn i) : e.src = i := by
  have h1 : e ∈ List.insertionSort candLEr
      (candidateEdges positions pbc cell cutoff i) :=
    List.mem_of_mem_take h
  exact src_of_mem_candidateEdges ((List.mem_insertionSort candLEr).mp h1)

lemma filter_src_flatMap (N : ℕ) (f : ℕ → List Cand)
    (hf : ∀ j e, e ∈ f j → e.src = j) (i : ℕ) :
    ((List.range N).flatMap f).filter (fun e => e.src == i) =
      if i < N then f i else [] := by
  induction N with
  | zero => simp
  | succ n ih =>
    rw [List.range_succ, List.flatMap_append, List.filter_append, ih,
      List.flatMap_cons, List.flatMap_nil, List.append_nil]
    by_cases hin : i < n
    · rw [if_pos hin, if_pos (Nat.lt_succ_of_lt hin),
        List.filter_eq_nil_iff.mpr, List.append_nil]
      intro e he
      have := hf n e he
      simp only [beq_iff_eq, decide_eq_true_eq]
      omega
    · by_cases hin2 : i = n
      · subst hin2
        rw [if_neg hin, if_pos (Nat.lt_succ_self i), List.nil_append,
          List.filter_eq_self.mpr]
        intro e he
        have := hf i e he
        simp [this]
      · rw [if_neg hin, if_neg (by omega), List.nil_append,
          List.filter_eq_nil_iff.mpr]
        intro e he
        have := hf n e he
        simp only [beq_iff_eq, decide_eq_true_eq]
        omega

lemma pairwise_take_drop {α : Type} {R : α → α → Prop} {l : List α}
    (h : l.Pairwise R) (k : ℕ) :
    ∀ a ∈ l.take k, ∀ b ∈ l.drop k, R a b := by
  have h2 : (l.take k ++ l.drop k).Pairwise R := by
    rw [List.take_append_drop]
    exact h
  exact (List.pairwise_append.mp h2).2.2

lemma filter_radius_graph_eq_retained (positions : List Vec3)
    (pbc : Bool × Bool × Bool) (cell : Mat3) (cutoff : ℚ) (mn i : ℕ) :
    (radius_graph_pbc positions pbc cell cutoff mn).filter
        (fun e => e.src == i) =
      retainedEdges positions pbc cell cutoff mn i := by
  rw [radius_graph_pbc,
    filter_src_flatMap _ _ (fun j e => src_of_mem_retainedEdges) i]
  by_cases hi : i < positions.length
  · rw [if_pos hi]
  · rw [if_neg hi, retainedEdges, candidateEdges, if_neg hi]
    simp

lemma sdiv_eq_smul_inv (p : Vec3) (c : ℚ) : p.sdiv c = Vec3.smul c⁻¹ p := by
  cases p
  simp [Vec3.sdiv, Vec3.smul, division_def, mul_comm]

lemma smul_sdiv (a b : ℚ) (v : Vec3) :
    (Vec3.smul a v).sdiv b = Vec3.smul (a / b) v := by
  cases v
  simp [Vec3.smul, Vec3.sdiv, div_mul_eq_mul_div]

lemma voigt_eq_voigt_symPart (m : Mat3) :
    full_3x3_to_voigt_6_stress m = full_3x3_to_voigt_6_stress m.symPart := by
  obtain ⟨⟨a, b, c⟩, ⟨d, e, f⟩, ⟨g, h, i⟩⟩ := m
  simp only [full_3x3_to_voigt_6_stress, Mat3.symPart, Mat3.add,
    Mat3.transpose, Mat3.smul, Vec3.add, Vec3.smul, Voigt6.mk.injEq]
  refine ⟨by ring, by ring, by ring, by ring, by ring, by ring⟩

/-! ### The claims -/

/-- C8: for every configuration given to the neighbor builder, no source
atom's retained edge count exceeds `max_neighbors`; the retained set for a
source atom is exactly the `max_neighbors` shortest-distance candidates
(its size is `min max_neighbors (number of candidates)`, the candidates
split — up to permutation — into the retained edges and the dropped ones,
and every retained edge precedes every dropped one in the deterministic
nearest-first order, in particular has no larger distance); and repeated
identical calls give the same result. -/
theorem radius_graph_pbc_truncation (positions : List Vec3)
    (pbc : Bool × Bool × Bool) (cell : Mat3) (cutoff : ℚ) (mn i : ℕ) :
    ((radius_graph_pbc positions pbc cell cutoff mn).filter
        (fun e => e.src == i)).length ≤ mn ∧
    ((radius_graph_pbc positions pbc cell cutoff mn).filter
        (fun e => e.src == i)).length =
      min mn (candidateEdges positions pbc cell cutoff i).length ∧
    (∃ dropped,
      (candidateEdges positions pbc cell cutoff i).Perm
        ((radius_graph_pbc positions pbc cell cutoff mn).filter
            (fun e => e.src == i) ++ dropped) ∧
      ∀ e ∈ (radius_graph_pbc positions pbc cell cutoff mn).filter
          (fun e => e.src == i),
        ∀ cd ∈ dropped, candLe e cd ∧ e.distSq ≤ cd.distSq) ∧
    radius_graph_pbc positions pbc cell cutoff mn =
      radius_graph_pbc positions pbc cell cutoff mn := by
  have hfil := filter_radius_graph_eq_retained positions pbc cell cutoff mn i
  have hsorted : (List.insertionSort candLEr
      (candidateEdges positions pbc cell cutoff i)).Pairwise candLEr :=
    List.sorted_insertionSort candLEr _
  refine ⟨?_, ?_, ⟨(List.insertionSort candLEr
    (candidateEdges positions pbc cell cutoff i)).drop mn, ?_, ?_⟩, rfl⟩
  · rw [hfil, retainedEdges, List.length_take]
    exact Nat.min_le_left _ _
  · rw [hfil, retainedEdges, List.length_take, List.length_insertionSort]
  · rw [hfil, retainedEdges, List.take_append_drop]
    exact (List.perm_insertionSort candLEr _).symm
  · intro e he cd hcd
    rw [hfil, retainedEdges] at he
    have hdom := pairwise_take_drop hsorted mn e he cd hcd
    exact ⟨hdom, candLe_distSq _ _ hdom⟩

/-- C1: under the `geometry` variant, the coordinates handed to the model
are the caller's positions divided by `Bohr` (Angstrom to Bohr), the
returned energy is the model's energy multiplied by `Hartree` (Hartree to
eV), and the returned forces are the model's gradient negated and rescaled
by `Hartree / Bohr`. -/
theorem geometry_variant_unit_conversion (c : CalcState) (atoms : Atoms)
    (props : List String) (h : c.model_type = "geometry") :
    (geometryModelInputs c atoms).coord =
      atoms.positions.map (fun p => Vec3.smul Bohr⁻¹ p) ∧
    XeqCalculate c atoms props = Except.ok
      { energy := some ((c.model (geometryModelInputs c atoms)).energy * Hartree)
        forces := some ((c.model (geometryModelInputs c atoms)).gradient.map
          (fun g => Vec3.smul (Hartree / Bohr) g.neg))
        energies := none
        stress := none
        stresses := none } := by
  constructor
  · simp [geometryModelInputs, sdiv_eq_smul_inv]
  · simp [XeqCalculate, buildModelInputs, h, smul_sdiv]

/-- Witness for C1: a concrete `geometry` evaluation of the stub model on a
free hydrogen atom yields energy `1 Hartree` (in eV) and zero forces. -/
theorem geometry_variant_unit_conversion_witness :
    geomState.model_type = "geometry" ∧
    XeqCalculate geomState atomsFree ["energy"] = Except.ok
      { energy := some Hartree
        forces := some [⟨0, 0, 0⟩]
        energies := none
        stress := none
        stresses := none } := by
  refine ⟨rfl, ?_⟩
  rw [(geometry_variant_unit_conversion geomState atomsFree ["energy"] rfl).2]
  simp [geomState, stubModel, geometryModelInputs, atomsFree, default_parameters,
    Vec3.smul, Vec3.neg, Vec3.sdiv]

/-- C6: under the `md` variant the coordinates are passed to the model
unchanged and the energy, forces and per-atom energies are returned to the
caller unchanged — no unit conversion anywhere on the `md` path. -/
theorem md_variant_no_unit_conversion (c : CalcState) (atoms : Atoms)
    (props : List String) (h : c.model_type = "md") :
    (mdModelInputs c atoms).coord = atoms.positions ∧
    ∃ r, XeqCalculate c atoms props = Except.ok r ∧
      r.energy = some (c.model (mdModelInputs c atoms)).energy ∧
      r.forces = some (c.model (mdModelInputs c atoms)).forces ∧
      r.energies = some (c.model (mdModelInputs c atoms)).energies := by
  refine ⟨rfl, ?_⟩
  simp [XeqCalculate, buildModelInputs, h]

/-- Witness for C6: the concrete `md` evaluation on the periodic cube passes
positions unchanged and returns the stub model's outputs unchanged. -/
theorem md_variant_no_unit_conversion_witness :
    mdState.model_type = "md" ∧
    ((mdModelInputs mdState atomsCube).coord = atomsCube.positions ∧
     ∃ r, XeqCalculate mdState atomsCube ["energy"] = Except.ok r ∧
       r.energy = some (mdState.model (mdModelInputs mdState atomsCube)).energy ∧
       r.forces = some (mdState.model (mdModelInputs mdState atomsCube)).forces ∧
       r.energies =
         some (mdState.model (mdModelInputs mdState atomsCube)).energies) :=
  ⟨rfl, md_variant_no_unit_conversion mdState atomsCube ["energy"] rfl⟩

/-- C7: for either variant the bundle handed to the model carries the atomic
numbers, one coordinate per atom, the configured charge and spin; and it
carries the edge list and shift vectors if and only if the variant is
`md`. -/
theorem model_inputs_keys (c : CalcState) (atoms : Atoms)
    (h : c.model_type = "geometry" ∨ c.model_type = "md") :
    ∃ inp, buildModelInputs c atoms = some inp ∧
      inp.at_no = atoms.numbers ∧
      inp.charge = c.parameters.charge ∧
      inp.spin = c.parameters.spin ∧
      inp.coord.length = atoms.positions.length ∧
      (inp.edge_index.isSome ↔ c.model_type = "md") ∧
      (inp.shifts.isSome ↔ c.model_type = "md") := by
  rcases h with h | h
  · refine ⟨geometryModelInputs c atoms, by simp [buildModelInputs, h],
      rfl, rfl, rfl, by simp [geometryModelInputs], ?_, ?_⟩ <;>
      simp [geometryModelInputs, h]
  · refine ⟨mdModelInputs c atoms, by simp [buildModelInputs, h],
      rfl, rfl, rfl, rfl, ?_, ?_⟩ <;>
      simp [mdModelInputs, h]

/-- Witness for C7: the concrete `geometry` calculator's bundle has the
always-present keys and no graph keys. -/
theorem model_inputs_keys_witness :
    (geomState.model_type = "geometry" ∨ geomState.model_type = "md") ∧
    (∃ inp, buildModelInputs geomState atomsFree = some inp ∧
      inp.at_no = atomsFree.numbers ∧
      inp.charge = geomState.parameters.charge ∧
      inp.spin = geomState.parameters.spin ∧
      inp.coord.length = atomsFree.positions.length ∧
      (inp.edge_index.isSome ↔ geomState.model_type = "md") ∧
      (inp.shifts.isSome ↔ geomState.model_type = "md")) :=
  ⟨Or.inl rfl, model_inputs_keys geomState atomsFree (Or.inl rfl)⟩

/-- C3: under the `md` variant on a 3-D periodic configuration the returned
stress is the model's virial converted to the reduced 6-component symmetric
form and divided by the cell volume, likewise the per-atom stresses from
the per-atom virials; and the conversion symmetrizes a non-symmetric input
(it only sees the symmetric part `(m + mᵀ)/2`), never discarding one of the
two off-diagonal entries. -/
theorem md_stress_voigt_volume (c : CalcState) (atoms : Atoms)
    (props : List String) (h : c.model_type = "md")
    (h3 : cellRank atoms.cell = 3) :
    (∃ r, XeqCalculate c atoms props = Except.ok r ∧
      r.stress = some ((full_3x3_to_voigt_6_stress
        (c.model (mdModelInputs c atoms)).virial).sdiv (getVolume atoms.cell)) ∧
      r.stresses = some ((c.model (mdModelInputs c atoms)).virials.map
        (fun v => (full_3x3_to_voigt_6_stress v).sdiv (getVolume atoms.cell)))) ∧
    ∀ m : Mat3, full_3x3_to_voigt_6_stress m =
      full_3x3_to_voigt_6_stress m.symPart := by
  refine ⟨?_, voigt_eq_voigt_symPart⟩
  simp [XeqCalculate, buildModelInputs, h, h3]

/-- Witness for C3: on the periodic cube (volume 8) the stub virial
`[[1,2,3],[4,5,6],[7,8,9]]` yields the Voigt stress
`(1, 5, 9, 7, 5, 3) / 8` — off-diagonal components averaged in pairs. -/
theorem md_stress_voigt_volume_witness :
    mdState.model_type = "md" ∧ cellRank atomsCube.cell = 3 ∧
    ∃ r, XeqCalculate mdState atomsCube ["stress"] = Except.ok r ∧
      r.stress = some ⟨1/8, 5/8, 9/8, 7/8, 5/8, 3/8⟩ ∧
      r.stresses = some [⟨1/8, 1/8, 1/8, 0, 0, 0⟩] := by
  refine ⟨rfl, by with_unfolding_all rfl, ?_⟩
  obtain ⟨⟨r, hr, hs, hss⟩, -⟩ := md_stress_voigt_volume mdState atomsCube
    ["stress"] rfl (by with_unfolding_all rfl)
  refine ⟨r, hr, ?_, ?_⟩
  · rw [hs]
    with_unfolding_all rfl
  · rw [hss]
    with_unfolding_all rfl

/-- C4: under the `md` variant on a configuration that is not 3-D periodic
the result has no stress entries at all (`stress` and `stresses` keys
absent, not zero-filled) for any requested property list, while energy,
forces and per-atom energies are present. -/
theorem md_nonperiodic_omits_stress (c : CalcState) (atoms : Atoms)
    (props : List String) (h : c.model_type = "md")
    (h3 : cellRank atoms.cell ≠ 3) :
    ∃ r, XeqCalculate c atoms props = Except.ok r ∧
      r.stress = none ∧ r.stresses = none ∧
      r.energy.isSome ∧ r.forces.isSome ∧ r.energies.isSome := by
  simp [XeqCalculate, buildModelInputs, h, h3]

/-- Witness for C4: the free-atom `md` evaluation with the stress keys
explicitly requested still returns a ResultSet with both stress entries
absent. -/
theorem md_nonperiodic_omits_stress_witness :
    mdState.model_type = "md" ∧ cellRank atomsFree.cell ≠ 3 ∧
    (∃ r, XeqCalculate mdState atomsFree ["stress", "stresses"] = Except.ok r ∧
      r.stress = none ∧ r.stresses = none ∧
      r.energy.isSome ∧ r.forces.isSome ∧ r.energies.isSome) :=
  ⟨rfl, by with_unfolding_all decide,
    md_nonperiodic_omits_stress mdState atomsFree ["stress", "stresses"] rfl
      (by with_unfolding_all decide)⟩

/-- Counterexample to C2 as stated: requesting `stress` under the `md`
variant on a non-3-D-periodic configuration does not raise — the call
returns normally, with the stress keys absent. -/
theorem stress_request_not_raised_counterexample :
    XeqCalculate mdState atomsFree ["stress"] =
      Except.ok ⟨some 1, some [⟨0, 0, 0⟩], some [1], none, none⟩ ∧
    XeqCalculate mdState atomsFree ["stress"] ≠
      Except.error CalcError.unsupportedPropertyError := by
  have h : XeqCalculate mdState atomsFree ["stress"] =
      Except.ok ⟨some 1, some [⟨0, 0, 0⟩], some [1], none, none⟩ := by
    with_unfolding_all rfl
  refine ⟨h, ?_⟩
  rw [h]
  exact fun hh => Except.noConfusion hh

/-- C2 (amended): for either variant, an evaluation with `stress` among the
requested properties on a non-3-D-periodic configuration returns normally
with the `stress` key absent (no `UnsupportedPropertyError` is raised and
no zero tensor is returned). -/
theorem stress_request_returns_without_stress (c : CalcState) (atoms : Atoms)
    (props : List String)
    (h : c.model_type = "geometry" ∨ c.model_type = "md")
    (h3 : cellRank atoms.cell ≠ 3) (hs : "stress" ∈ props) :
    ∃ r, XeqCalculate c atoms props = Except.ok r ∧ r.stress = none := by
  rcases h with h | h
  · simp [XeqCalculate, buildModelInputs, h]
  · simp [XeqCalculate, buildModelInputs, h, h3]

/-- Witness for the amended C2: a concrete `geometry` evaluation with
`stress` requested returns normally without a stress entry. -/
theorem stress_request_returns_without_stress_witness :
    (geomState.model_type = "geometry" ∨ geomState.model_type = "md") ∧
    cellRank atomsFree.cell ≠ 3 ∧ "stress" ∈ (["stress"] : List String) ∧
    (∃ r, XeqCalculate geomState atomsFree ["stress"] = Except.ok r ∧
      r.stress = none) :=
  ⟨Or.inl rfl, by with_unfolding_all decide, by simp,
    stress_request_returns_without_stress geomState atomsFree ["stress"]
      (Or.inl rfl) (by with_unfolding_all decide) (by simp)⟩

/-- Counterexample to C5 as stated: supplying both a preloaded model and a
checkpoint locator at construction is accepted (no error), so construction
does not require exactly one of the two sources. -/
theorem init_both_sources_ok_counterexample :
    (XeqInit (fun _ => stubModel) ["energy"] "md" (some "model.jit")
        (some stubModel) default_parameters).1 =
      Except.ok ⟨"md", stubModel,
        ["energy", "energies", "stress", "stresses", "forces"],
        default_parameters⟩ := by
  with_unfolding_all rfl

/-- C5 (amended): construction succeeds exactly when the variant tag is one
of `md` and `geometry` and at least one of a preloaded model or a checkpoint
locator is supplied; in particular it signals `ConfigurationError` when
neither source is given or the variant tag is invalid. -/
theorem init_requires_source_and_valid_variant (loadCkpt : String → Model)
    (classProps : List String) (model_type : String)
    (ckpt_file : Option String) (model : Option Model) (params : Params) :
    (∃ st, (XeqInit loadCkpt classProps model_type ckpt_file model params).1 =
        Except.ok st) ↔
      ((model_type = "md" ∨ model_type = "geometry") ∧
        (model.isSome ∨ ckpt_file.isSome)) := by
  by_cases hmt : model_type ≠ "md" ∧ model_type ≠ "geometry"
  · rw [XeqInit, if_pos hmt]
    simp [hmt.1, hmt.2]
  · rw [XeqInit, if_neg hmt]
    rw [not_and_or, not_ne_iff, not_ne_iff] at hmt
    cases model with
    | some m => simpa using hmt
    | none =>
      cases ckpt_file with
      | some f => simpa using hmt
      | none => simp

/-- C10: when both a preloaded model and a checkpoint locator are supplied,
construction succeeds, the resulting calculator holds the preloaded model,
and the result does not depend on the checkpoint loader at all (the
checkpoint is never loaded). -/
theorem preloaded_model_shadows_ckpt (load1 load2 : String → Model)
    (classProps : List String) (model_type : String) (f : String) (m : Model)
    (params : Params) (h : model_type = "md" ∨ model_type = "geometry") :
    (∃ st, (XeqInit load1 classProps model_type (some f) (some m) params).1 =
        Except.ok st ∧ st.model = m) ∧
    XeqInit load1 classProps model_type (some f) (some m) params =
      XeqInit load2 classProps model_type (some f) (some m) params := by
  have hne : ¬(model_type ≠ "md" ∧ model_type ≠ "geometry") := by
    rcases h with h | h <;> simp [h]
  constructor
  · rw [XeqInit, if_neg hne]
    exact ⟨_, rfl, rfl⟩
  · rw [XeqInit, XeqInit, if_neg hne]

/-- Witness for C10: with both sources supplied, two constructions differing
only in the checkpoint loader agree and hold the preloaded stub model. -/
theorem preloaded_model_shadows_ckpt_witness :
    ("md" = "md" ∨ "md" = "geometry") ∧
    ((∃ st, (XeqInit (fun _ => stubModel) ["energy"] "md" (some "a.pt")
        (some stubModel) default_parameters).1 = Except.ok st ∧
        st.model = stubModel) ∧
     XeqInit (fun _ => stubModel) ["energy"] "md" (some "a.pt")
        (some stubModel) default_parameters =
      XeqInit (fun _ => stubModel
        ) ["energy"] "md" (some "a.pt") (some stubModel) default_parameters) :=
  ⟨Or.inl rfl, preloaded_model_shadows_ckpt (fun _ => stubModel)
    (fun _ => stubModel) ["energy"] "md" "a.pt" stubModel default_parameters
    (Or.inl rfl)⟩

/-- C9: constructing an `md` calculator extends the shared class-level
`implemented_properties` list with `energies`, `stress`, `stresses` and
`forces`; every subsequently constructed calculator — of either variant —
then reports those properties among its implemented properties; and a
repeated `md` construction appends them again, duplicating `stress` in the
shared list. -/
theorem implemented_properties_shared_mutation (load load2 : String → Model)
    (classProps : List String) (m m2 : Model) (p p2 : Params) (mt2 : String)
    (h : mt2 = "md" ∨ mt2 = "geometry") :
    ("stress" ∈ (XeqInit load classProps "md" none (some m) p).2 ∧
     "stresses" ∈ (XeqInit load classProps "md" none (some m) p).2 ∧
     "energies" ∈ (XeqInit load classProps "md" none (some m) p).2 ∧
     "forces" ∈ (XeqInit load classProps "md" none (some m) p).2) ∧
    (∃ st, (XeqInit load2 (XeqInit load classProps "md" none (some m) p).2
        mt2 none (some m2) p2).1 = Except.ok st ∧
      "stress" ∈ st.implemented_properties ∧
      "stresses" ∈ st.implemented_properties ∧
      "energies" ∈ st.implemented_properties ∧
      "forces" ∈ st.implemented_properties) ∧
    (XeqInit load (XeqInit load classProps "md" none (some m) p).2 "md" none
        (some m) p).2.count "stress" = classProps.count "stress" + 2 := by
  have h2 : ∀ (l : List String), (XeqInit load l "md" none (some m) p).2 =
      l ++ ["energies", "stress", "stresses", "forces"] := by
    intro l
    simp [XeqInit]
  refine ⟨?_, ?_, ?_⟩
  · rw [h2]
    refine ⟨by simp, by simp, by simp, by simp⟩
  · rcases h with h | h <;> subst h
    · refine ⟨⟨"md", m2, classProps ++ ["energies", "stress", "stresses",
        "forces", "energies", "stress", "stresses", "forces"], p2⟩,
        by simp [XeqInit], by simp, by simp, by simp, by simp⟩
    · refine ⟨⟨"geometry", m2, classProps ++ ["energies", "stress",
        "stresses", "forces", "gradient"], p2⟩,
        by simp [XeqInit], by simp, by simp, by simp, by simp⟩
  · rw [h2, h2, List.count_append, List.count_append]
    simp [List.count_cons]

/-- Witness for C9: after one concrete `md` construction, a subsequently
constructed `geometry` calculator also reports `stress` among its
implemented properties. -/
theorem implemented_properties_shared_mutation_witness :
    ("geometry" = "md" ∨ "geometry" = "geometry") ∧
    ∃ st, (XeqInit (fun _ => stubModel)
        (XeqInit (fun _ => stubModel) ["energy"] "md" none (some stubModel)
          default_parameters).2
        "geometry" none (some stubModel) default_parameters).1 =
      Except.ok st ∧ "stress" ∈ st.implemented_properties := by
  refine ⟨Or.inr rfl, ?_⟩
  obtain ⟨-, ⟨st, h1, hmem, -, -, -⟩, -⟩ :=
    implemented_properties_shared_mutation (fun _ => stubModel)
      (fun _ => stubModel) ["energy"] stubModel stubModel default_parameters
      default_parameters "geometry" (Or.inr rfl)
  exact ⟨st, h1, hmem⟩

end XequiNet
